import Mathlib

/-!
Verification of the tech-online-backend relational mapper (db package) and
HTTP dispatcher (rest package) against their natural-language specification.
The Go source is shallowly embedded: pure query-string construction is
translated directly, the database driver and JSON codec are abstracted as
explicit function parameters, and reflective record handling is rendered by
typed parameters.
-/

set_option maxRecDepth 4096

/-! ## db package: selector triples and the WHERE builder (db/select.go) -/

/-- Selector mirrors db.Selector: a (haystack, operator, needle) triple.
A needle of none models a Go nil needle (the NULL sentinel); bound values
are modelled as strings since the mapper only passes them through. -/
structure Selector where
  haystack : String
  op : String
  needle : Option String
deriving Repr, DecidableEq

/-- buildWhereStep is the loop body of db.buildWhere: state is
(strsearch, searcharr, nextidx). A nil needle emits a literal NULL with no
bound parameter; otherwise a numbered placeholder is emitted and the needle
is appended to the parameter list. -/
def buildWhereStep (offset : Int) (acc : String × List String × Nat) (item : Selector) :
    String × List String × Nat :=
  let strsearch := acc.1
  let searcharr := acc.2.1
  let nextidx := acc.2.2
  let whereand := if strsearch = "" then "WHERE" else "AND"
  match item.needle with
  | none =>
      (strsearch ++ " " ++ whereand ++ " " ++ item.haystack ++ " " ++ item.op ++ " NULL",
       searcharr, nextidx)
  | some v =>
      (strsearch ++ " " ++ whereand ++ " " ++ item.haystack ++ " " ++ item.op ++ " $" ++
         toString (offset + (nextidx : Int)),
       searcharr ++ [v], nextidx + 1)

/-- buildWhere mirrors db.buildWhere: fold the loop body over the selector
list starting from empty clause, empty parameters and next index 1. -/
def buildWhere (offset : Int) (search : List Selector) : String × List String :=
  let r := search.foldl (buildWhereStep offset) ("", [], 1)
  (r.1, r.2.1)

/-- specWhereClause renders the WHERE clause following the words of the
spec: triples joined with AND only in caller order, a non-null triple
emitting a placeholder numbered offset plus one plus the count of non-null
triples before it, a null triple emitting a literal NULL comparison. -/
def specWhereClause (offset : Int) : Nat → Bool → List Selector → String
  | _, _, [] => ""
  | b, first, item :: rest =>
    let kw := if first then "WHERE" else "AND"
    match item.needle with
    | none =>
        " " ++ kw ++ " " ++ item.haystack ++ " " ++ item.op ++ " NULL" ++
          specWhereClause offset b false rest
    | some _ =>
        " " ++ kw ++ " " ++ item.haystack ++ " " ++ item.op ++ " $" ++
          toString (offset + ((b + 1 : Nat) : Int)) ++
          specWhereClause offset (b + 1) false rest

/-- specParams is the bound-parameter list the spec describes: the values
of the non-null triples, in caller order. -/
def specParams (search : List Selector) : List String :=
  search.filterMap Selector.needle

/-- DbResult mirrors db.Result as used by select.go: bulk counters plus an
optional error cause. -/
structure DbResult where
  affected : Nat := 0
  ok : Nat := 0
  failed : Nat := 0
  error : Option String := none
deriving Repr, DecidableEq

/-- Database abstracts the SQL driver connection: a query takes the SQL
text and the bound parameters and either fails or yields rows, each of
which either scans into a record or fails to scan. -/
structure Database (Row : Type) where
  query : String → List String → Except String (List (Except String Row))

/-- scanRows mirrors the rows.Next and rows.Scan loop of db.SelectMany:
rows are consumed in order, a scan failure aborts immediately, otherwise
each record is appended and counted. -/
def scanRows {Row : Type} : List (Except String Row) → List Row → Nat →
    Except String (List Row × Nat)
  | [], acc, n => .ok (acc, n)
  | .error e :: _, _, _ => .error e
  | .ok r :: rest, acc, n => scanRows rest (acc ++ [r]) (n + 1)

/-- selectManyQuery is the SQL text db.SelectMany executes: the column
list, the table, and the WHERE clause appended directly. -/
def selectManyQuery (keys table : String) (search : List Selector) : String :=
  "SELECT " ++ keys ++ " FROM " ++ table ++ (buildWhere 0 search).1

/-- SelectMany mirrors db.SelectMany on a typed destination slice. The
reflective column enumeration is abstracted as the keys string; the DB
handle is passed explicitly (none models the missing-DB configuration
error). On success the destination is replaced wholesale by the freshly
scanned list; on any failure the original destination is returned
untouched. -/
def SelectMany {Row : Type} (db : Option (Database Row)) (keys : String)
    (dest : List Row) (table : String) (search : List Selector) :
    DbResult × List Row :=
  match db with
  | none => ({ error := some "Tried to issue SelectMany() without a DB object" }, dest)
  | some dbv =>
    let strsearch := (buildWhere 0 search).1
    let searcharr := (buildWhere 0 search).2
    let q := "SELECT " ++ keys ++ " FROM " ++ table ++ strsearch
    match dbv.query q searcharr with
    | .error e => ({ error := some ("Select(): SELECT failed on DB.Query: " ++ e) }, dest)
    | .ok rows =>
      match scanRows rows [] 0 with
      | .error e => ({ error := some ("Select(): SELECT failed to scan: " ++ e) }, dest)
      | .ok (newlist, n) => ({ ok := n }, newlist)

/-- SelectOne mirrors db.Select: delegate to SelectMany on a fresh empty
slice, propagate failure with the destination untouched, return an empty
result on zero rows with the destination untouched, otherwise assign the
first row into the destination and report one row. -/
def SelectOne {Row : Type} (db : Option (Database Row)) (keys : String)
    (dest : Row) (table : String) (search : List Selector) : DbResult × Row :=
  let sm := SelectMany db keys [] table search
  let selectResult := sm.1
  let retv := sm.2
  match selectResult.error with
  | some _ => (selectResult, dest)
  | none =>
    match retv with
    | [] => ({}, dest)
    | reply :: _ => ({ ok := 1 }, reply)

/-- existsQuery is the SQL text db.Exists executes: the format string
"SELECT * FROM %s WHERE %s LIMIT 1" applied to the table and the clause
returned by buildWhere. -/
def existsQuery (table : String) (search : List Selector) : String :=
  "SELECT * FROM " ++ table ++ " WHERE " ++ (buildWhere 0 search).1 ++ " LIMIT 1"

/-- ExistsRow mirrors db.Exists (named Exists in the source): issue the
existsQuery text and report one row if the first rows.Next succeeds,
an empty result when no row is returned, and the wrapped error on query
failure. -/
def ExistsRow {Row : Type} (db : Database Row) (table : String)
    (search : List Selector) : DbResult :=
  let searchstr := (buildWhere 0 search).1
  let searcharr := (buildWhere 0 search).2
  let q := "SELECT * FROM " ++ table ++ " WHERE " ++ searchstr ++ " LIMIT 1"
  match db.query q searcharr with
  | .error e => { error := some ("Exists(): SELECT failed: " ++ e) }
  | .ok rows =>
    match rows with
    | [] => {}
    | _ :: _ => { ok := 1 }

/-! ## SHA-256 over byte lists, used by the response encoder for the ETag
header. Machine words are Nat reduced modulo 2 to the 32. -/

/-- w32 truncates a Nat to a 32-bit word. -/
def w32 (n : Nat) : Nat := n % 4294967296

/-- rotr32 is 32-bit rotate right. -/
def rotr32 (x n : Nat) : Nat := w32 ((x >>> n) ||| (x <<< (32 - n)))

/-- smallSigma0 is the sigma0 message-schedule function of SHA-256. -/
def smallSigma0 (x : Nat) : Nat := (rotr32 x 7) ^^^ (rotr32 x 18) ^^^ (x >>> 3)

/-- smallSigma1 is the sigma1 message-schedule function of SHA-256. -/
def smallSigma1 (x : Nat) : Nat := (rotr32 x 17) ^^^ (rotr32 x 19) ^^^ (x >>> 10)

/-- bigSigma0 is the Sigma0 compression function of SHA-256. -/
def bigSigma0 (x : Nat) : Nat := (rotr32 x 2) ^^^ (rotr32 x 13) ^^^ (rotr32 x 22)

/-- bigSigma1 is the Sigma1 compression function of SHA-256. -/
def bigSigma1 (x : Nat) : Nat := (rotr32 x 6) ^^^ (rotr32 x 11) ^^^ (rotr32 x 25)

/-- chFn is the choose function of SHA-256; complement is taken within 32 bits. -/
def chFn (x y z : Nat) : Nat := (x &&& y) ^^^ ((4294967295 - x) &&& z)

/-- majFn is the majority function of SHA-256. -/
def majFn (x y z : Nat) : Nat := (x &&& y) ^^^ (x &&& z) ^^^ (y &&& z)

/-- sha256K is the round-constant table of SHA-256. -/
def sha256K : List Nat :=
  [1116352408, 1899447441, 3049323471, 3921009573,
   961987163, 1508970993, 2453635748, 2870763221,
   3624381080, 310598401, 607225278, 1426881987,
   1925078388, 2162078206, 2614888103, 3248222580,
   3835390401, 4022224774, 264347078, 604807628,
   770255983, 1249150122, 1555081692, 1996064986,
   2554220882, 2821834349, 2952996808, 3210313671,
   3336571891, 3584528711, 113926993, 338241895,
   666307205, 773529912, 1294757372, 1396182291,
   1695183700, 1986661051, 2177026350, 2456956037,
   2730485921, 2820302411, 3259730800, 3345764771,
   3516065817, 3600352804, 4094571909, 275423344,
   430227734, 506948616, 659060556, 883997877,
   958139571, 1322822218, 1537002063, 1747873779,
   1955562222, 2024104815, 2227730452, 2361852424,
   2428436474, 2756734187, 3204031479, 3329325298]

/-- sha256Init is the initial hash state of SHA-256. -/
def sha256Init : List Nat :=
  [1779033703, 3144134277, 1013904242, 2773480762,
   1359893119, 2600822924, 528734635, 1541459225]

/-- sha256Pad appends the 0x80 marker, zero padding and the big-endian
64-bit bit length, reaching a multiple of 64 bytes. -/
def sha256Pad (msg : List Nat) : List Nat :=
  let len := msg.length
  let bitlen := len * 8
  let k := (119 - len % 64) % 64
  let lenBytes := [(bitlen >>> 56) % 256, (bitlen >>> 48) % 256, (bitlen >>> 40) % 256,
    (bitlen >>> 32) % 256, (bitlen >>> 24) % 256, (bitlen >>> 16) % 256,
    (bitlen >>> 8) % 256, bitlen % 256]
  msg ++ [0x80] ++ List.replicate k 0 ++ lenBytes

/-- chunks64Go splits a byte list into 64-byte blocks; the fuel bounds the
recursion and is always at least the list length at every call. -/
def chunks64Go : Nat → List Nat → List (List Nat)
  | _, [] => []
  | 0, _ => []
  | fuel + 1, l => l.take 64 :: chunks64Go fuel (l.drop 64)

/-- chunks64 splits a byte list into 64-byte blocks. -/
def chunks64 (l : List Nat) : List (List Nat) := chunks64Go l.length l

/-- bytesToWords packs big-endian 4-byte groups into 32-bit words. -/
def bytesToWords : List Nat → List Nat
  | a :: b :: c :: d :: rest => (a * 16777216 + b * 65536 + c * 256 + d) :: bytesToWords rest
  | _ => []

/-- scheduleFrom extends the 16 message words to 64 using the sigma
functions; the fuel counts the remaining words to produce. -/
def scheduleFrom (w : Array Nat) (i : Nat) : Nat → Array Nat
  | 0 => w
  | fuel + 1 =>
    let v := w32 (smallSigma1 (w.getD (i - 2) 0) + w.getD (i - 7) 0 +
      smallSigma0 (w.getD (i - 15) 0) + w.getD (i - 16) 0)
    scheduleFrom (w.push v) (i + 1) fuel

/-- sha256Round is one compression round on the eight-word working state. -/
def sha256Round (st : List Nat) (wk : Nat × Nat) : List Nat :=
  match st with
  | [a, b, c, d, e, f, g, h] =>
    let t1 := w32 (h + bigSigma1 e + chFn e f g + wk.2 + wk.1)
    let t2 := w32 (bigSigma0 a + majFn a b c)
    [w32 (t1 + t2), a, b, c, w32 (d + t1), e, f, g]
  | other => other

/-- sha256Block compresses one 64-byte block into the running hash state. -/
def sha256Block (h : List Nat) (block : List Nat) : List Nat :=
  let w := scheduleFrom (Array.mk (bytesToWords block)) 16 48
  let st := (List.zip w.toList sha256K).foldl sha256Round h
  List.zipWith (fun x y => w32 (x + y)) h st

/-- sha256Bytes is the SHA-256 digest, as a list of 32 bytes. -/
def sha256Bytes (msg : List Nat) : List Nat :=
  let hs := (chunks64 (sha256Pad msg)).foldl sha256Block sha256Init
  (hs.map (fun wv => [(wv >>> 24) % 256, (wv >>> 16) % 256, (wv >>> 8) % 256, wv % 256])).flatten

/-- hexDigit is the lowercase hexadecimal digit for a value below 16. -/
def hexDigit (n : Nat) : Char := if n < 10 then Char.ofNat (48 + n) else Char.ofNat (87 + n)

/-- byteToHex renders one byte as two lowercase hex digits, as Go
encoding/hex does. -/
def byteToHex (b : Nat) : String := String.mk [hexDigit (b / 16), hexDigit (b % 16)]

/-- hexEncode renders a byte list as a lowercase hex string. -/
def hexEncode (bytes : List Nat) : String := String.join (bytes.map byteToHex)

/-- strBytes views a string as its byte list; response bodies in the
claims are ASCII, for which the character codes are the UTF-8 bytes. -/
def strBytes (s : String) : List Nat := s.data.map Char.toNat

/-- hexSha256 models hex.EncodeToString(sha256.Sum256(body)). -/
def hexSha256 (s : String) : String := hexEncode (sha256Bytes (strBytes s))

/-! ## rest package: dispatcher, router, identity resolution, encoder
(source file with package rest; the Request, Result and AccessTokenEntry
declarations and the token store live in rest package files that are not
among the provided sources, so their shapes are modelled from the spec and
from how the provided sources use them). -/

/-- AccessTokenEntry is modelled from the spec: id, key (secret, compared
verbatim), role, comment and optional expiry. The concrete Go declaration
is in a rest package file that is not among the provided sources; the
claims never inspect the fields. -/
structure AccessTokenEntry where
  id : Nat := 0
  key : String := ""
  role : String := ""
  comment : String := ""
  expiry : Option Nat := none
deriving Repr, DecidableEq

/-- RestResult mirrors rest.Result as the spec describes it and as the
provided sources use it: optional status-code override, message, optional
error cause, bulk counters and an optional location. -/
structure RestResult where
  code : Int := 0
  message : String := ""
  location : String := ""
  affected : Nat := 0
  ok : Nat := 0
  failed : Nat := 0
  error : Option String := none
deriving Repr, DecidableEq

/-- Request mirrors rest.Request as the spec describes it and as the
provided sources use it. The access token is a type parameter so the
dispatcher embedding does not depend on the token model. -/
structure Request (τ : Type) where
  id : Nat := 0
  method : String := ""
  pathArgs : List (String × String) := []
  queryArgs : List (String × String) := []
  listLimit : Int := 0
  listBrief : Bool := false
  accessToken : τ

/-- Pattern abstracts a compiled regular expression: whether a path
suffix matches, and the named capture groups extracted from a match. -/
structure Pattern where
  matchString : String → Bool
  captures : String → List (String × String)

/-- Receiver mirrors rest.receiver: a compiled path pattern plus the
allocator. The allocator field holds the fresh zero-value record the Go
allocator returns, and the four optional handlers model whether that
record type implements Getter, Poster, Putter and Deleter; a handler
returns the capability result together with the possibly mutated record. -/
structure Receiver (δ τ : Type) where
  pathPattern : Pattern
  allocator : δ
  getH : Option (Request τ → δ → RestResult × δ) := none
  postH : Option (Request τ → δ → RestResult × δ) := none
  putH : Option (Request τ → δ → RestResult × δ) := none
  deleteH : Option (Request τ → δ → RestResult × δ) := none

/-- Body models the request body as the dispatcher sees it: nil/empty
bytes, bytes that unmarshal into a record payload, or bytes on which
json.Unmarshal fails. -/
inductive Body (δ : Type) where
  | empty
  | valid (payload : δ)
  | invalid
deriving Repr, DecidableEq

/-- Input mirrors rest.input: request id, extracted path suffix, method,
body data, raw query multimap and the pretty flag. -/
structure Input (δ : Type) where
  requestID : Nat := 0
  pathSuffix : String := ""
  method : String := ""
  data : Body δ := Body.empty
  query : List (String × List String) := []
  pretty : Bool := false

/-- OutData models the interface-typed output.data field: nil, the
structured Result echoed back, the handler record, or the generic
message object produced by the message helper. -/
inductive OutData (δ : Type) where
  | none
  | ofResult (r : RestResult)
  | ofHandler (d : δ)
  | ofMessage (s : String)
deriving Repr, DecidableEq

/-- Output mirrors rest.output: status code, data and location. -/
structure Output (δ : Type) where
  code : Int
  data : OutData δ
  location : String := ""
deriving Repr, DecidableEq

/-- findReceiver mirrors the matching loop of receiverSet.ServeHTTP: scan
the registrations in order and stop at the first whose pattern matches
the path suffix. -/
def findReceiver {δ τ : Type} : List (Receiver δ τ) → String → Option (Receiver δ τ)
  | [], _ => none
  | r :: rest, suffix =>
    if r.pathPattern.matchString suffix then some r else findReceiver rest suffix

/-- goFieldsAux walks the characters accumulating the current field in
reverse; whitespace closes the field, a run of whitespace produces no
empty fields. -/
def goFieldsAux : List Char → List Char → List String
  | [], acc => if acc.isEmpty then [] else [String.mk acc.reverse]
  | c :: rest, acc =>
    if c.isWhitespace then
      if acc.isEmpty then goFieldsAux rest []
      else String.mk acc.reverse :: goFieldsAux rest []
    else goFieldsAux rest (c :: acc)

/-- goFields mirrors strings.Fields: split around runs of whitespace,
yielding no empty fields. -/
def goFields (s : String) : List String := goFieldsAux s.data []

/-- goToLower mirrors strings.ToLower for the ASCII scheme names the
dispatcher compares. -/
def goToLower (s : String) : String := String.mk (s.data.map Char.toLower)

/-- getRequestAccessToken mirrors rest.getRequestAccessToken. The token
store lookup (loadAccessTokenByKey) and the guest token factory
(makeGuestAccessToken) live in a rest package file that is not among the
provided sources and are passed as parameters; the claim is about the
fallback logic, which is fully present here: a missing header, a header
that does not split into exactly two fields, a non-bearer scheme
(case-insensitively) or an unknown key all fall back to the guest entry. -/
def getRequestAccessToken (lookup : String → Option AccessTokenEntry)
    (guest : AccessTokenEntry) (authHeader : Option String) : AccessTokenEntry :=
  let token : Option AccessTokenEntry :=
    match authHeader with
    | none => none
    | some h =>
      let fields := goFields h
      if fields.length = 2 ∧ goToLower (fields.headD "") = "bearer" then
        lookup (fields.getD 1 "")
      else none
  match token with
  | none => guest
  | some t => t

/-- goAtoi mirrors strconv.Atoi: an optional sign followed by at least
one digit, all digits, value within the signed 64-bit range. -/
def goAtoi (s : String) : Option Int :=
  match s.data with
  | [] => none
  | c :: rest =>
    let neg := c == '-'
    let digits := if c == '-' || c == '+' then rest else c :: rest
    if digits.isEmpty then none
    else if digits.all Char.isDigit then
      let n := digits.foldl (fun acc ch => acc * 10 + (ch.toNat - 48)) (0 : Nat)
      let v : Int := if neg then -(n : Int) else (n : Int)
      if v < -(2 ^ 63) then none
      else if (2 : Int) ^ 63 - 1 < v then none
      else some v
    else none

/-- buildRequest mirrors the request-building block of rest.handleRequest:
named captures become path arguments, only the first value of each query
key is kept (empty string when the key has no values), the limit key is
parsed with Atoi and stored only on success, and the brief flag is set
exactly when the brief key is present. -/
def buildRequest {δ τ : Type} (receiver : Receiver δ τ) (inp : Input δ)
    (accessToken : τ) : Request τ :=
  let pathArgs := receiver.pathPattern.captures inp.pathSuffix
  let queryArgs := inp.query.map (fun kv => (kv.1, kv.2.headD ""))
  let listLimit : Int :=
    match queryArgs.lookup "limit" with
    | some value =>
      match goAtoi value with
      | some i => i
      | none => 0
    | none => 0
  let listBrief :=
    match queryArgs.lookup "brief" with
    | some _ => true
    | none => false
  { id := inp.requestID, method := inp.method, pathArgs := pathArgs,
    queryArgs := queryArgs, listLimit := listLimit, listBrief := listBrief,
    accessToken := accessToken }

/-- handleRequest mirrors rest.handleRequest: 404 when no receiver
matched; otherwise build the request, allocate a fresh record, and follow
the verb switch. OPTIONS falls through with the zero result. HEAD and GET
need the read capability, POST the create capability (after unmarshalling
a non-empty body, whose failure is 400), PUT the write capability
(likewise), DELETE the delete capability; any other method is 405. GET
and POST expose the record as response data, the others do not. -/
def handleRequest {δ τ : Type} (recv : Option (Receiver δ τ)) (inp : Input δ)
    (accessToken : τ) : RestResult × Option δ :=
  match recv with
  | none => ({ code := 404, message := "endpoint not found" }, none)
  | some receiver =>
    let request := buildRequest receiver inp accessToken
    let item := receiver.allocator
    if inp.method = "OPTIONS" then ({}, none)
    else if inp.method = "HEAD" then
      match receiver.getH with
      | none => ({ code := 405, message := "method not allowed for endpoint" }, none)
      | some get => ((get request item).1, none)
    else if inp.method = "GET" then
      match receiver.getH with
      | none => ({ code := 405, message := "method not allowed for endpoint" }, none)
      | some get => ((get request item).1, some (get request item).2)
    else if inp.method = "POST" then
      match inp.data with
      | Body.invalid => ({ code := 400, message := "malformed data for endpoint" }, none)
      | Body.empty =>
        match receiver.postH with
        | none => ({ code := 405, message := "method not allowed for endpoint" }, none)
        | some post => ((post request item).1, some (post request item).2)
      | Body.valid payload =>
        match receiver.postH with
        | none => ({ code := 405, message := "method not allowed for endpoint" }, none)
        | some post => ((post request payload).1, some (post request payload).2)
    else if inp.method = "PUT" then
      match inp.data with
      | Body.invalid => ({ code := 400, message := "malformed data for endpoint" }, none)
      | Body.empty =>
        match receiver.putH with
        | none => ({ code := 405, message := "method not allowed for endpoint" }, none)
        | some put => ((put request item).1, none)
      | Body.valid payload =>
        match receiver.putH with
        | none => ({ code := 405, message := "method not allowed for endpoint" }, none)
        | some put => ((put request payload).1, none)
    else if inp.method = "DELETE" then
      match receiver.deleteH with
      | none => ({ code := 405, message := "method not allowed for endpoint" }, none)
      | some del => ((del request item).1, none)
    else ({ code := 405, message := "method not allowed for endpoint" }, none)

/-- processOutput mirrors rest.processOutput: a handler error forces 500;
a zero code defaults to 200; the status class then shapes the body, with
the default class overwriting both code and data with the generic failure
message; OPTIONS and HEAD always strip the data. -/
def processOutput {δ : Type} (inp : Input δ) (result0 : RestResult)
    (handlerData : Option δ) : Output δ :=
  let result := if result0.error.isSome then { result0 with code := 500 } else result0
  let c : Int := if result.code ≠ 0 then result.code else 200
  let out : Output δ :=
    if 100 ≤ c ∧ c ≤ 199 then { code := c, data := OutData.none }
    else if 200 ≤ c ∧ c ≤ 299 then
      { code := c,
        data :=
          if c = 204 then OutData.none
          else
            match handlerData with
            | none => OutData.ofResult result
            | some d => OutData.ofHandler d,
        location := if c = 201 then result.location else "" }
    else if 300 ≤ c ∧ c ≤ 399 then
      { code := c, data := OutData.ofResult result, location := result.location }
    else if 400 ≤ c ∧ c ≤ 499 then
      { code := c, data := OutData.ofResult result }
    else
      { code := 500, data := OutData.ofMessage "internal server error" }
  if inp.method = "OPTIONS" ∨ inp.method = "HEAD" then { out with data := OutData.none }
  else out

/-- processInputPath mirrors the path normalization of rest.processInput:
the full path is suffixed with a trailing slash when missing, then the
registered path part is cut off the front (byte slicing in Go, character
slicing here; identical on ASCII paths). -/
def processInputPath (fullPath pathPart : String) : String :=
  let fp := if fullPath.endsWith "/" then fullPath else fullPath ++ "/"
  fp.drop pathPart.length

/-- processInputBody mirrors the body handling of rest.processInput: when
the declared content length is zero the body is never read and the data
stays nil; otherwise the declared number of bytes is read fully, which
either succeeds or aborts the request with a read error. -/
def processInputBody {δ : Type} (contentLength : Int)
    (readFull : Except String (Body δ)) : Except String (Body δ) :=
  if contentLength = 0 then Except.ok Body.empty else readFull

/-- HttpResponse collects what rest.sendResponse emits: the status code,
whether a JSON content type was set, the CORS headers, the ETag, the
optional location header and the bytes written after the headers. -/
structure HttpResponse where
  code : Int
  contentTypeSet : Bool
  corsOrigin : String
  corsMethods : String
  corsHeaders : String
  corsMaxAge : String
  etag : String
  location : Option String
  sentBody : Option String
deriving Repr, DecidableEq

/-- sendResponse mirrors rest.sendResponse with the JSON encoder
abstracted: data is serialized (indented when pretty was requested), a
serialization failure turns the code into 500 with an empty body, the
ETag is the hex SHA-256 of the serialized body, CORS headers are always
attached, and unless the code is 204 the body plus a trailing newline is
written out. -/
def sendResponse {δ : Type} (marshal marshalIndent : OutData δ → Option String)
    (inp : Input δ) (out : Output δ) : HttpResponse :=
  let enc : Int × String × Bool :=
    match out.data with
    | OutData.none => (out.code, "", false)
    | d =>
      match (if inp.pretty then marshalIndent d else marshal d) with
      | some b => (out.code, b, true)
      | none => (500, "", true)
  let code := enc.1
  let body := enc.2.1
  { code := code,
    contentTypeSet := enc.2.2,
    corsOrigin := "*",
    corsMethods := "*",
    corsHeaders := "*",
    corsMaxAge := "300",
    etag := hexSha256 body,
    location := if out.location ≠ "" then some out.location else none,
    sentBody := if code = 204 then none else some (body ++ "\n") }

/-! ## Concrete sample values used by witnesses and counterexamples. -/

/-- dbNoRows is a database on which every query succeeds with zero rows. -/
def dbNoRows : Database Nat := { query := fun _ _ => .ok [] }

/-- dbRejectDoubleWhere models a SQL engine holding one matching row: it
answers any well-formed probe with that row but rejects the text with the
duplicated WHERE keyword as a syntax error, as PostgreSQL does. -/
def dbRejectDoubleWhere : Database Nat :=
  { query := fun q _ =>
      if q = "SELECT * FROM items WHERE  WHERE status = $1 LIMIT 1" then
        .error "syntax error at or near WHERE"
      else .ok [.ok 1] }

/-- patAll is a pattern matching every suffix with no captures. -/
def patAll : Pattern := { matchString := fun _ => true, captures := fun _ => [] }

/-- rNoCaps is a registered resource implementing no capability. -/
def rNoCaps : Receiver Unit Unit := { pathPattern := patAll, allocator := () }

/-- rPostOnly is a registered resource implementing only the create
capability, answering 201. -/
def rPostOnly : Receiver Unit Unit :=
  { pathPattern := patAll, allocator := (),
    postH := some (fun _ d => ({ code := 201 }, d)) }

/-- inpPostEmpty is a POST request with an empty body. -/
def inpPostEmpty : Input Unit := { method := "POST", pathSuffix := "7/" }

/-- inpPutEmpty is a PUT request with an empty body. -/
def inpPutEmpty : Input Unit := { method := "PUT", pathSuffix := "7/" }

/-- inpGetPlain is a GET request with no query. -/
def inpGetPlain : Input Unit := { method := "GET", pathSuffix := "7/" }

/-- inpLimitNeg is a GET request carrying the query limit=-5. -/
def inpLimitNeg : Input Unit :=
  { method := "GET", pathSuffix := "", query := [("limit", ["-5"])] }

/-- inpBriefBadLimit is a GET request carrying brief and an unparsable
limit. -/
def inpBriefBadLimit : Input Unit :=
  { method := "GET", pathSuffix := "", query := [("brief", [""]), ("limit", ["abc"])] }

/-- guestEntry is a sample guest token entry. -/
def guestEntry : AccessTokenEntry := { role := "guest", comment := "Guest" }

/-- marshalCompact is a sample JSON encoder producing a compact array. -/
def marshalCompact : OutData Unit → Option String := fun _ => some "[1,2]"

/-- marshalPretty is a sample JSON encoder producing an indented array. -/
def marshalPretty : OutData Unit → Option String := fun _ => some "[ 1, 2 ]"

/-- outHandlerEx is a 200 output carrying handler data. -/
def outHandlerEx : Output Unit := { code := 200, data := OutData.ofHandler () }

/-! ## Helper lemmas -/

/-- str_ne_empty turns length positivity into string inequality. -/
theorem str_ne_empty {s : String} (h : 0 < s.length) : s ≠ "" := by
  intro he; subst he; simp at h

/-- append_len_pos propagates length positivity over append. -/
theorem append_len_pos {a : String} (b : String) (h : 0 < a.length) :
    0 < (a ++ b).length := by
  rw [String.length_append]; omega

/-- buildWhere_fold_inv is the loop invariant of the WHERE builder: from a
non-empty accumulated clause, the remaining triples append the spec
rendering of the clause, the non-null needles in order, and advance the
placeholder index by the number of non-null triples. -/
theorem buildWhere_fold_inv (offset : Int) (search : List Selector) :
    ∀ (s : String) (arr : List String) (b : Nat), 0 < s.length →
      search.foldl (buildWhereStep offset) (s, arr, b + 1) =
        (s ++ specWhereClause offset b false search,
         arr ++ specParams search,
         b + (specParams search).length + 1) := by
  induction search with
  | nil =>
    intro s arr b hs
    simp [specWhereClause, specParams]
  | cons item rest ih =>
    intro s arr b hs
    cases hn : item.needle with
    | none =>
      have hstep : buildWhereStep offset (s, arr, b + 1) item =
          (s ++ " " ++ "AND" ++ " " ++ item.haystack ++ " " ++ item.op ++ " NULL",
           arr, b + 1) := by
        simp [buildWhereStep, hn, if_neg (str_ne_empty hs)]
      rw [List.foldl_cons, hstep, ih _ arr b (by simp [String.length_append]; omega)]
      simp [specWhereClause, hn, specParams, String.append_assoc]
    | some v =>
      have hstep : buildWhereStep offset (s, arr, b + 1) item =
          (s ++ " " ++ "AND" ++ " " ++ item.haystack ++ " " ++ item.op ++ " $" ++
             toString (offset + ((b + 1 : Nat) : Int)),
           arr ++ [v], b + 1 + 1) := by
        simp [buildWhereStep, hn, if_neg (str_ne_empty hs)]
      rw [List.foldl_cons, hstep, ih _ (arr ++ [v]) (b + 1)
        (by simp [String.length_append]; omega)]
      simp [specWhereClause, hn, specParams, String.append_assoc]
      omega

/-- buildWhere_eq_spec relates the code WHERE builder to the spec
rendering on every input. -/
theorem buildWhere_eq_spec (offset : Int) (search : List Selector) :
    buildWhere offset search = (specWhereClause offset 0 true search, specParams search) := by
  cases search with
  | nil => rfl
  | cons item rest =>
    unfold buildWhere
    cases hn : item.needle with
    | none =>
      have hstep : buildWhereStep offset ("", [], 1) item =
          ("" ++ " " ++ "WHERE" ++ " " ++ item.haystack ++ " " ++ item.op ++ " NULL",
           [], 0 + 1) := by
        simp [buildWhereStep, hn]
      rw [List.foldl_cons, hstep, buildWhere_fold_inv offset rest _ [] 0
        (by repeat first | decide | apply append_len_pos)]
      simp [specWhereClause, hn, specParams, String.append_assoc]
    | some v =>
      have hstep : buildWhereStep offset ("", [], 1) item =
          ("" ++ " " ++ "WHERE" ++ " " ++ item.haystack ++ " " ++ item.op ++ " $" ++
             toString (offset + ((0 + 1 : Nat) : Int)),
           [] ++ [v], 1 + 1) := by
        simp [buildWhereStep, hn]
      rw [List.foldl_cons, hstep, buildWhere_fold_inv offset rest _ ([] ++ [v]) 1
        (by repeat first | decide | apply append_len_pos)]
      simp [specWhereClause, hn, specParams, String.append_assoc]

/-! ## Claims -/

/-- C1: the WHERE builder joins the triples with AND only, in caller
order; a non-null triple emits a placeholder and binds its value, a null
triple emits a literal NULL comparison with no bound parameter, and
placeholders are numbered consecutively from offset plus one over the
non-null triples only; the sequence status = active, region not equal
NULL with offset 0 yields the clause WHERE status = $1 AND region != NULL
with exactly one bound parameter, active, in that order. -/
theorem C1_where_builder (offset : Int) (search : List Selector) :
    buildWhere offset search =
      (specWhereClause offset 0 true search, specParams search) ∧
    buildWhere 0 [⟨"status", "=", some "active"⟩, ⟨"region", "!=", none⟩] =
      (" WHERE status = $1 AND region != NULL", ["active"]) :=
  ⟨buildWhere_eq_spec offset search, by decide⟩

/-- C2: the query text db.Exists builds duplicates the WHERE keyword,
because buildWhere already begins its clause with WHERE and the Exists
format string inserts a second one; the same selector list gives
SelectMany a well-formed single-WHERE query. Against an engine holding a
matching row but rejecting the malformed text as a syntax error (as
PostgreSQL does), Exists surfaces the error with a zero found count, so
it can never report true. -/
theorem C2_exists_double_where :
    existsQuery "items" [⟨"status", "=", some "active"⟩] =
      "SELECT * FROM items WHERE  WHERE status = $1 LIMIT 1" ∧
    selectManyQuery "id,status" "items" [⟨"status", "=", some "active"⟩] =
      "SELECT id,status FROM items WHERE status = $1" ∧
    ExistsRow dbRejectDoubleWhere "items" [⟨"status", "=", some "active"⟩] =
      { error := some "Exists(): SELECT failed: syntax error at or near WHERE" } ∧
    (ExistsRow dbRejectDoubleWhere "items" [⟨"status", "=", some "active"⟩]).ok = 0 ∧
    (dbRejectDoubleWhere.query
      (selectManyQuery "id,status" "items" [⟨"status", "=", some "active"⟩])
      ["active"] = .ok [.ok 1]) :=
  ⟨by decide, by decide, by decide, by decide, by rfl⟩

/-- scanRows_all_ok evaluates the scan loop when every row scans cleanly:
the rows are appended in order and counted. -/
theorem scanRows_all_ok {Row : Type} (rs : List Row) :
    ∀ (acc : List Row) (n : Nat),
      scanRows (rs.map Except.ok) acc n = .ok (acc ++ rs, n + rs.length) := by
  induction rs with
  | nil => intro acc n; simp [scanRows]
  | cons r rest ih =>
    intro acc n
    simp only [List.map_cons, scanRows, ih]
    simp [List.append_assoc]
    omega

/-- C4: when the query of a find-many call executes and every row scans
without error, the result carries a nil error, the Ok count equals the
number of rows, and the destination is replaced wholesale by exactly
those rows; in particular zero matching rows is success with a freshly
allocated empty collection, never an error. -/
theorem C4_selectmany_zero_rows {Row : Type} (db : Database Row) (keys table : String)
    (dest : List Row) (search : List Selector) (rs : List Row)
    (hq : db.query (selectManyQuery keys table search) (buildWhere 0 search).2 =
      .ok (rs.map Except.ok)) :
    SelectMany (some db) keys dest table search = ({ ok := rs.length }, rs) ∧
    (rs = [] →
      SelectMany (some db) keys dest table search = ({ error := none, ok := 0 }, [])) := by
  have hmain : SelectMany (some db) keys dest table search = ({ ok := rs.length }, rs) := by
    simp only [selectManyQuery] at hq
    simp only [SelectMany, hq, scanRows_all_ok rs [] 0]
    simp
  exact ⟨hmain, fun h => by subst h; simpa using hmain⟩

/-- C4 witness: a concrete find-many call against a database with zero
matching rows succeeds with a nil error, Ok count zero and an empty
destination, replacing a non-empty caller slice. -/
theorem C4_selectmany_zero_rows_witness :
    SelectMany (some dbNoRows) "id" [7] "items" [⟨"status", "=", some "active"⟩] =
      ({ error := none, ok := 0 }, ([] : List Nat)) :=
  (C4_selectmany_zero_rows dbNoRows "id" "items" [7]
    [⟨"status", "=", some "active"⟩] [] (by rfl)).2 rfl

/-- C5: when the find-many underlying a find-one call succeeds, zero rows
yield the empty result (nil error, zero Ok count) with the caller
destination untouched, and a first row x yields Ok count one with the
destination assigned x. -/
theorem C5_select_not_found {Row : Type} (db : Option (Database Row))
    (keys table : String) (dest : Row) (search : List Selector)
    (hok : (SelectMany db keys ([] : List Row) table search).1.error = none) :
    ((SelectMany db keys ([] : List Row) table search).2 = [] →
      SelectOne db keys dest table search = ({ error := none, ok := 0 }, dest)) ∧
    (∀ x xs, (SelectMany db keys ([] : List Row) table search).2 = x :: xs →
      SelectOne db keys dest table search = ({ ok := 1 }, x)) := by
  constructor
  · intro hnil
    simp only [SelectOne, hok, hnil]
  · intro x xs hcons
    simp only [SelectOne, hok, hcons]

/-- C5 witness: a concrete find-one call with zero matching rows returns
the not-found signal (nil error, zero Ok count) and leaves the caller
destination record unchanged. -/
theorem C5_select_not_found_witness :
    SelectOne (some dbNoRows) "id" 7 "items" [⟨"status", "=", some "active"⟩] =
      ({ error := none, ok := 0 }, 7) :=
  (C5_select_not_found (some dbNoRows) "id" "items" 7
    [⟨"status", "=", some "active"⟩] (by rfl)).1 (by rfl)

/-- C6: identity resolution never rejects a request: a missing
authorization header, a header that does not split into exactly two
fields, a scheme that is not bearer case-insensitively, or a key unknown
to the token store all make the request proceed with the guest identity;
and in every case the resolved identity is either the guest entry or a
stored entry, never a failure. -/
theorem C6_guest_fallback (lookup : String → Option AccessTokenEntry)
    (guest : AccessTokenEntry) (authHeader : Option String) :
    (authHeader = none → getRequestAccessToken lookup guest authHeader = guest) ∧
    (∀ h, authHeader = some h → (goFields h).length ≠ 2 →
      getRequestAccessToken lookup guest authHeader = guest) ∧
    (∀ h, authHeader = some h → goToLower ((goFields h).headD "") ≠ "bearer" →
      getRequestAccessToken lookup guest authHeader = guest) ∧
    (∀ h, authHeader = some h → lookup ((goFields h).getD 1 "") = none →
      getRequestAccessToken lookup guest authHeader = guest) ∧
    (getRequestAccessToken lookup guest authHeader = guest ∨
      ∃ t, lookup ((goFields (authHeader.getD "")).getD 1 "") = some t ∧
        getRequestAccessToken lookup guest authHeader = t) := by
  refine ⟨?_, ?_, ?_, ?_, ?_⟩
  · intro h; subst h; rfl
  · intro h hh hlen
    subst hh
    have hcnot : ¬((goFields h).length = 2 ∧ goToLower ((goFields h).headD "") = "bearer") :=
      fun hc => hlen hc.1
    simp only [getRequestAccessToken, if_neg hcnot]
  · intro h hh hlow
    subst hh
    have hcnot : ¬((goFields h).length = 2 ∧ goToLower ((goFields h).headD "") = "bearer") :=
      fun hc => hlow hc.2
    simp only [getRequestAccessToken, if_neg hcnot]
  · intro h hh hnone
    subst hh
    simp only [getRequestAccessToken]
    by_cases hc : (goFields h).length = 2 ∧ goToLower ((goFields h).headD "") = "bearer"
    · rw [if_pos hc, hnone]
    · rw [if_neg hc]
  · cases authHeader with
    | none => left; rfl
    | some h =>
      simp only [getRequestAccessToken, Option.getD]
      by_cases hc : (goFields h).length = 2 ∧ goToLower ((goFields h).headD "") = "bearer"
      · rw [if_pos hc]
        cases hl : lookup ((goFields h).getD 1 "") with
        | none => left; rfl
        | some t => right; exact ⟨t, rfl, rfl⟩
      · rw [if_neg hc]; left; rfl

/-- C6 witness: a malformed (basic-scheme) authorization header together
with a store that knows no key resolves to the guest identity. -/
theorem C6_guest_fallback_witness :
    getRequestAccessToken (fun _ => none) guestEntry (some "Basic dXNlcg==") = guestEntry :=
  (C6_guest_fallback (fun _ => none) guestEntry (some "Basic dXNlcg==")).2.2.1
    "Basic dXNlcg==" rfl (by decide)

/-- C7: a handler result carrying a non-nil error forces status 500, and
for the forced 500 (and in general for any effective status outside the
recognized 1xx to 4xx families) the response body is the fixed generic
failure object, discarding the handler message and data; OPTIONS and HEAD
responses additionally have the body stripped, so the body clause is
stated for the other methods. -/
theorem C7_error_forces_500 {δ : Type} (inp : Input δ) (result : RestResult)
    (hd : Option δ) :
    (result.error.isSome = true → (processOutput inp result hd).code = 500) ∧
    (result.error.isSome = true → inp.method ≠ "OPTIONS" → inp.method ≠ "HEAD" →
      processOutput inp result hd =
        { code := 500, data := OutData.ofMessage "internal server error", location := "" }) ∧
    (result.error = none →
      ¬(100 ≤ (if result.code ≠ 0 then result.code else 200) ∧
          (if result.code ≠ 0 then result.code else 200) ≤ 499) →
      inp.method ≠ "OPTIONS" → inp.method ≠ "HEAD" →
      processOutput inp result hd =
        { code := 500, data := OutData.ofMessage "internal server error", location := "" }) := by
  refine ⟨?_, ?_, ?_⟩
  · intro herr
    simp only [processOutput, herr, if_true]
    norm_num
    split <;> rfl
  · intro herr hopt hhead
    simp only [processOutput, herr, if_true]
    norm_num
    tauto
  · intro herr hrange hopt hhead
    simp only [processOutput, herr, Option.isSome_none, Bool.false_eq_true, if_false]
    rw [if_neg (fun hc : _ ∧ _ => hrange ⟨hc.1, by omega⟩)]
    rw [if_neg (fun hc : _ ∧ _ => hrange ⟨by omega, by omega⟩)]
    rw [if_neg (fun hc : _ ∧ _ => hrange ⟨by omega, by omega⟩)]
    rw [if_neg (fun hc : _ ∧ _ => hrange ⟨by omega, hc.2⟩)]
    rw [if_neg (fun hc : _ ∨ _ => hc.elim hopt hhead)]

/-- C7 witness: a concrete GET result carrying an error is encoded as 500
with the fixed generic failure body. -/
theorem C7_error_forces_500_witness :
    processOutput inpGetPlain { error := some "query failed" } (none : Option Unit) =
      { code := 500, data := OutData.ofMessage "internal server error", location := "" } :=
  (C7_error_forces_500 inpGetPlain { error := some "query failed" } none).2.1 rfl
    (by decide) (by decide)

/-- findReceiver_eq_find identifies the receiver loop with first-match
search in registration order. -/
theorem findReceiver_eq_find {δ τ : Type} (l : List (Receiver δ τ)) (suffix : String) :
    findReceiver l suffix = l.find? (fun rc => rc.pathPattern.matchString suffix) := by
  induction l with
  | nil => rfl
  | cons r rest ih =>
    cases h : r.pathPattern.matchString suffix <;>
      simp [findReceiver, List.find?, h, ih]

/-- findReceiver_of_no_match evaluates the receiver loop when no pattern
matches. -/
theorem findReceiver_of_no_match {δ τ : Type} (l : List (Receiver δ τ)) (suffix : String)
    (h : ∀ rc ∈ l, rc.pathPattern.matchString suffix = false) :
    findReceiver l suffix = none := by
  induction l with
  | nil => rfl
  | cons r rest ih =>
    simp only [findReceiver, h r (by simp), if_false]
    exact ih (fun rc hrc => h rc (by simp [hrc]))

/-- C3: dispatch follows the fixed verb table: with no matching
registration in the prefix the result is 404 endpoint-not-found for every
method, and the first matching registration in registration order wins;
on a match, GET and HEAD need the read capability, POST the create
capability and PUT the write capability (both stated for requests whose
body deserializes, since a malformed body is answered 400 earlier),
DELETE the delete capability, each answering 405 when absent; OPTIONS is
always accepted with no capability; any other method is 405. -/
theorem C3_dispatch_verb_table {δ τ : Type} (set : List (Receiver δ τ)) (inp : Input δ)
    (tok : τ) (r : Receiver δ τ) :
    (findReceiver set inp.pathSuffix =
      set.find? (fun rc => rc.pathPattern.matchString inp.pathSuffix)) ∧
    ((∀ rc ∈ set, rc.pathPattern.matchString inp.pathSuffix = false) →
      handleRequest (findReceiver set inp.pathSuffix) inp tok =
        ({ code := 404, message := "endpoint not found" }, none)) ∧
    ((inp.method = "GET" ∨ inp.method = "HEAD") → r.getH = none →
      (handleRequest (some r) inp tok).1 =
        { code := 405, message := "method not allowed for endpoint" }) ∧
    (inp.method = "POST" → r.postH = none → inp.data ≠ Body.invalid →
      (handleRequest (some r) inp tok).1 =
        { code := 405, message := "method not allowed for endpoint" }) ∧
    (inp.method = "PUT" → r.putH = none → inp.data ≠ Body.invalid →
      (handleRequest (some r) inp tok).1 =
        { code := 405, message := "method not allowed for endpoint" }) ∧
    (inp.method = "DELETE" → r.deleteH = none →
      (handleRequest (some r) inp tok).1 =
        { code := 405, message := "method not allowed for endpoint" }) ∧
    (inp.method = "OPTIONS" → handleRequest (some r) inp tok = ({}, none)) ∧
    (inp.method ∉ (["OPTIONS", "HEAD", "GET", "POST", "PUT", "DELETE"] : List String) →
      (handleRequest (some r) inp tok).1 =
        { code := 405, message := "method not allowed for endpoint" }) := by
  refine ⟨findReceiver_eq_find set inp.pathSuffix, ?_, ?_, ?_, ?_, ?_, ?_, ?_⟩
  · intro hnm
    rw [findReceiver_of_no_match set inp.pathSuffix hnm]
    rfl
  · intro hm hg
    cases hm with
    | inl hm => simp [handleRequest, hm, hg]
    | inr hm => simp [handleRequest, hm, hg]
  · intro hm hp hb
    cases hd : inp.data with
    | invalid => exact absurd hd hb
    | empty => simp [handleRequest, hm, hp, hd]
    | valid payload => simp [handleRequest, hm, hp, hd]
  · intro hm hp hb
    cases hd : inp.data with
    | invalid => exact absurd hd hb
    | empty => simp [handleRequest, hm, hp, hd]
    | valid payload => simp [handleRequest, hm, hp, hd]
  · intro hm hdel
    simp [handleRequest, hm, hdel]
  · intro hm
    simp [handleRequest, hm]
  · intro hm
    simp only [List.mem_cons, List.not_mem_nil, or_false] at hm
    push_neg at hm
    obtain ⟨h1, h2, h3, h4, h5, h6⟩ := hm
    simp [handleRequest, h1, h2, h3, h4, h5, h6]

/-- C3 witness: a POST to a matched registration whose type implements no
capability is answered 405; the same registration set with no match is
answered 404 regardless of method. -/
theorem C3_dispatch_verb_table_witness :
    (handleRequest (some rNoCaps) inpPostEmpty ()).1 =
      { code := 405, message := "method not allowed for endpoint" } ∧
    handleRequest (findReceiver ([] : List (Receiver Unit Unit)) inpPostEmpty.pathSuffix)
      inpPostEmpty () = ({ code := 404, message := "endpoint not found" }, none) :=
  ⟨(C3_dispatch_verb_table [] inpPostEmpty () rNoCaps).2.2.2.1 rfl rfl (by decide),
   (C3_dispatch_verb_table [] inpPostEmpty () rNoCaps).2.1 (by simp)⟩

/-- C9 counterexample: the query limit=-5 parses successfully and is
stored, leaving the request list-limit negative, contradicting the
claim that the list-limit is a non-negative integer. -/
theorem C9_negative_limit_counterexample :
    (buildRequest rNoCaps inpLimitNeg ()).listLimit = -5 ∧
    (buildRequest rNoCaps inpLimitNeg ()).listLimit < 0 := by
  constructor <;> decide

/-- C9 amended: query normalization keeps only the first value per key
(empty string when a key has no values); the reserved key limit is parsed
with Atoi into the list-limit as a signed integer, negative values
included, with parse failures silently ignored leaving it at its zero
default, as is a missing key; and the list-brief flag is set if and only
if the key brief is present. -/
theorem C9_query_normalization_amended {δ τ : Type} (receiver : Receiver δ τ)
    (inp : Input δ) (tok : τ) :
    ((buildRequest receiver inp tok).queryArgs =
      inp.query.map (fun kv => (kv.1, kv.2.headD ""))) ∧
    (∀ v i, (buildRequest receiver inp tok).queryArgs.lookup "limit" = some v →
      goAtoi v = some i → (buildRequest receiver inp tok).listLimit = i) ∧
    (∀ v, (buildRequest receiver inp tok).queryArgs.lookup "limit" = some v →
      goAtoi v = none → (buildRequest receiver inp tok).listLimit = 0) ∧
    ((buildRequest receiver inp tok).queryArgs.lookup "limit" = none →
      (buildRequest receiver inp tok).listLimit = 0) ∧
    ((buildRequest receiver inp tok).listBrief =
      ((buildRequest receiver inp tok).queryArgs.lookup "brief").isSome) := by
  refine ⟨rfl, ?_, ?_, ?_, ?_⟩
  · intro v i hv hi
    simp only [buildRequest] at hv ⊢
    simp only [hv, hi]
  · intro v hv hi
    simp only [buildRequest] at hv ⊢
    simp only [hv, hi]
  · intro hv
    simp only [buildRequest] at hv ⊢
    simp only [hv]
  · simp only [buildRequest]
    cases hb : (inp.query.map (fun kv => (kv.1, kv.2.headD ""))).lookup "brief" <;>
      simp [hb]

/-- C9 amended witness: with the brief key present and an unparsable
limit, the list-limit stays at its unset zero and the brief flag is set. -/
theorem C9_query_normalization_amended_witness :
    (buildRequest rNoCaps inpBriefBadLimit ()).listLimit = 0 ∧
    (buildRequest rNoCaps inpBriefBadLimit ()).listBrief = true :=
  ⟨(C9_query_normalization_amended rNoCaps inpBriefBadLimit ()).2.2.1 "abc" rfl (by decide),
   by
    have h := (C9_query_normalization_amended rNoCaps inpBriefBadLimit ()).2.2.2.2
    rw [h]; decide⟩

/-- C10: a POST or PUT request with a declared content length of zero
never reads a body (the input data stays empty), and dispatch on an empty
body skips JSON deserialization entirely: the malformed-payload 400
branch is unreachable and the create or write capability, when present,
is invoked on the freshly allocated zero-value record. -/
theorem C10_empty_body {δ τ : Type} (r : Receiver δ τ) (inp : Input δ) (tok : τ)
    (hempty : inp.data = Body.empty) :
    (∀ readFull : Except String (Body δ), processInputBody 0 readFull = Except.ok Body.empty) ∧
    (inp.method = "POST" →
      handleRequest (some r) inp tok =
        (match r.postH with
         | none => ({ code := 405, message := "method not allowed for endpoint" }, none)
         | some post =>
           ((post (buildRequest r inp tok) r.allocator).1,
            some (post (buildRequest r inp tok) r.allocator).2))) ∧
    (inp.method = "PUT" →
      handleRequest (some r) inp tok =
        (match r.putH with
         | none => ({ code := 405, message := "method not allowed for endpoint" }, none)
         | some put => ((put (buildRequest r inp tok) r.allocator).1, none))) := by
  refine ⟨fun readFull => rfl, ?_, ?_⟩
  · intro hm
    cases hp : r.postH <;> simp [handleRequest, hm, hempty, hp]
  · intro hm
    cases hp : r.putH <;> simp [handleRequest, hm, hempty, hp]

/-- C10 witness: a POST with empty body to a create-only resource reaches
the create capability on the fresh record and is answered 201, not 400. -/
theorem C10_empty_body_witness :
    handleRequest (some rPostOnly) inpPostEmpty () = ({ code := 201 }, some ()) := by
  have h := (C10_empty_body rPostOnly inpPostEmpty () rfl).2.1 rfl
  simpa [rPostOnly] using h

/-- C8 counterexample: a response with a body sends the serialized body
plus a trailing newline, but the ETag is the digest of the body without
that newline, so the ETag header differs from the hex SHA-256 of the
exact response bytes sent to the client. -/
theorem C8_etag_counterexample :
    (sendResponse marshalCompact marshalPretty inpGetPlain outHandlerEx).sentBody =
      some "[1,2]\n" ∧
    (sendResponse marshalCompact marshalPretty inpGetPlain outHandlerEx).etag ≠
      hexSha256 ((sendResponse marshalCompact marshalPretty inpGetPlain
        outHandlerEx).sentBody.getD "") := by
  constructor
  · rfl
  · decide

/-- C8 amended: for every response whose data serializes to a body b, the
ETag header equals the hex SHA-256 digest of b, and the bytes sent to the
client are b plus a trailing newline (unless the status is 204), so the
digest covers the response bytes except that trailing newline;
pretty-printed and compact encodings still receive different validators,
as the sample encodings show. -/
theorem C8_etag_amended {δ : Type} (marshal marshalIndent : OutData δ → Option String)
    (inp : Input δ) (out : Output δ) (b : String)
    (hdata : out.data ≠ OutData.none)
    (henc : (if inp.pretty then marshalIndent out.data else marshal out.data) = some b) :
    (sendResponse marshal marshalIndent inp out).etag = hexSha256 b ∧
    (out.code ≠ 204 →
      (sendResponse marshal marshalIndent inp out).sentBody = some (b ++ "\n")) ∧
    hexSha256 "[1,2]" ≠ hexSha256 "[ 1, 2 ]" := by
  refine ⟨?_, ?_, by decide⟩
  · cases hdc : out.data with
    | none => exact absurd hdc hdata
    | ofResult r => rw [hdc] at henc; simp [sendResponse, hdc, henc]
    | ofHandler d => rw [hdc] at henc; simp [sendResponse, hdc, henc]
    | ofMessage s => rw [hdc] at henc; simp [sendResponse, hdc, henc]
  · intro hcode
    cases hdc : out.data with
    | none => exact absurd hdc hdata
    | ofResult r =>
      rw [hdc] at henc; simp [sendResponse, hdc, henc, if_neg hcode]
    | ofHandler d =>
      rw [hdc] at henc; simp [sendResponse, hdc, henc, if_neg hcode]
    | ofMessage s =>
      rw [hdc] at henc; simp [sendResponse, hdc, henc, if_neg hcode]

/-- C8 amended witness: on the concrete 200 response with handler data,
the ETag is the digest of the compact encoding and the sent bytes are
that encoding plus a newline. -/
theorem C8_etag_amended_witness :
    (sendResponse marshalCompact marshalPretty inpGetPlain outHandlerEx).etag =
      hexSha256 "[1,2]" ∧
    (sendResponse marshalCompact marshalPretty inpGetPlain outHandlerEx).sentBody =
      some ("[1,2]" ++ "\n") :=
  ⟨(C8_etag_amended marshalCompact marshalPretty inpGetPlain outHandlerEx "[1,2]"
      (by decide) rfl).1,
   (C8_etag_amended marshalCompact marshalPretty inpGetPlain outHandlerEx "[1,2]"
      (by decide) rfl).2.1 (by decide)⟩
